import Mathlib

/-!
Verification of the httpcloak unified transport facade (Go package
`transport`, files `transport.go` and `errors.go`) against its
natural-language specification.

The embedding is shallow: Go structs become Lean structures, Go maps become
association lists with shadowing insert, byte slices become `List Nat`, and
`time.Duration` becomes `Int` (nanoseconds).  Network round trips performed
by the per-protocol sub-transports (`HTTP1Transport`, `HTTP2Transport`,
`HTTP3Transport`, whose implementations live outside the verified files) are
modelled as oracle inputs: the facade functions receive the outcome each
sub-transport would produce for the request, and the embedding records, as
an explicit trace, which sub-transports the facade actually invokes and in
which order.
-/

namespace HttpCloak

/-- `Protocol` from transport.go: the HTTP protocol version selector. -/
inductive Protocol where
  | auto
  | http1
  | http2
  | http3
deriving DecidableEq, Repr

/-- `Protocol.String()` from transport.go. -/
def Protocol.toName : Protocol → String
  | .auto => "auto"
  | .http1 => "h1"
  | .http2 => "h2"
  | .http3 => "h3"

/-- ASCII prefix test on character sequences (helper for Go
`strings.Contains`). -/
def startsWithSeq : List Char → List Char → Bool
  | _, [] => true
  | [], _ :: _ => false
  | c :: cs, d :: ds => c == d && startsWithSeq cs ds

/-- Helper for Go `strings.Contains`: does the second sequence occur
contiguously inside the first? -/
def hasSubSeq : List Char → List Char → Bool
  | [], sub => sub.isEmpty
  | c :: cs, sub => startsWithSeq (c :: cs) sub || hasSubSeq cs sub

/-- Go `strings.Contains s sub`. -/
def strContains (s sub : String) : Bool :=
  hasSubSeq s.data sub.data

/-- Go `strings.ToLower` (the strings appearing in the verified code are
ASCII, where `Char.toLower` agrees with Go). -/
def strToLower (s : String) : String :=
  String.mk (s.data.map Char.toLower)

/-- A Go `error` value as used by errors.go.  `basic` is any non-wrapping
error from the runtime or the net package; the three flags record whether
the dynamic type assertions `err.(net.Error).Timeout()`,
`err.(net.Error).Temporary()` and `err.(*net.DNSError)` succeed (they are
direct type assertions, not unwrapping).  `wrapped` is an error produced by
`fmt.Errorf` with `%w`: `msg` is its rendered `Error()` text and `inner`
what `Unwrap` returns.  `transportErr` is `*TransportError` from errors.go
with its seven fields (`Cause` and `Category` are nilable, hence
`Option`). -/
inductive GoError where
  | basic (msg : String) (netTimeout netTemporary netDNS : Bool)
  | wrapped (msg : String) (inner : GoError)
  | transportErr (op host port protocol : String)
      (cause category : Option GoError) (retryable : Bool)

/-- `(*TransportError).Error()` from errors.go, extended to all modelled Go
errors (`basic` and `wrapped` render their stored message). -/
def GoError.errorString : GoError → String
  | .basic msg _ _ _ => msg
  | .wrapped msg _ => msg
  | .transportErr op host port protocol cause _ _ =>
    let s₁ := op ++
      (if host ≠ "" then
        " " ++ host ++
          (if port ≠ "" && port ≠ "443" && port ≠ "80" then ":" ++ port else "")
      else "")
    let s₂ := s₁ ++ (if protocol ≠ "" then " [" ++ protocol ++ "]" else "")
    match cause with
    | some c => s₂ ++ ": " ++ c.errorString
    | none => s₂

/-- The direct type assertion `err.(net.Error)` + `.Timeout()`:
`*TransportError` and `fmt.Errorf` wrappers are not `net.Error`. -/
def GoError.isNetTimeout : GoError → Bool
  | .basic _ t _ _ => t
  | _ => false

/-- The direct type assertion `err.(net.Error)` + `.Temporary()`. -/
def GoError.isNetTemporary : GoError → Bool
  | .basic _ _ t _ => t
  | _ => false

/-- The direct type assertion `err.(*net.DNSError)`. -/
def GoError.isNetDNS : GoError → Bool
  | .basic _ _ _ d => d
  | _ => false

/-- `errors.As(err, &te)` for target type `*TransportError`: the target
matches the node itself or, failing that, anything reachable through
`Unwrap`. -/
def GoError.asTransport : GoError → Bool
  | .transportErr .. => true
  | .wrapped _ inner => inner.asTransport
  | .basic .. => false

/-- Sentinel `ErrConnection` from errors.go. -/
def ErrConnection : GoError := .basic "connection error" false false false

/-- Sentinel `ErrTLS` from errors.go. -/
def ErrTLS : GoError := .basic "TLS error" false false false

/-- Sentinel `ErrDNS` from errors.go. -/
def ErrDNS : GoError := .basic "DNS error" false false false

/-- Sentinel `ErrTimeout` from errors.go. -/
def ErrTimeout : GoError := .basic "timeout error" false false false

/-- Sentinel `ErrProxy` from errors.go. -/
def ErrProxy : GoError := .basic "proxy error" false false false

/-- Sentinel `ErrProtocol` from errors.go. -/
def ErrProtocol : GoError := .basic "protocol error" false false false

/-- Sentinel `ErrRequest` from errors.go. -/
def ErrRequest : GoError := .basic "request error" false false false

/-- `isRetryableError` from errors.go. -/
def isRetryableError : Option GoError → Bool
  | none => false
  | some err =>
    if err.isNetTimeout then true
    else if err.isNetTemporary then true
    else
      let errStr := strToLower err.errorString
      if strContains errStr "connection reset" ||
          strContains errStr "connection refused" ||
          strContains errStr "broken pipe" then true
      else if err.isNetDNS then true
      else if strContains errStr "eof" then true
      else false

/-- `categorizeError` from errors.go. -/
def categorizeError : Option GoError → Option GoError
  | none => none
  | some err =>
    let errStr := strToLower err.errorString
    if err.isNetTimeout then some ErrTimeout
    else if err.isNetDNS then some ErrDNS
    else if strContains errStr "tls" || strContains errStr "certificate" ||
        strContains errStr "x509" || strContains errStr "handshake" then
      some ErrTLS
    else if strContains errStr "connection refused" ||
        strContains errStr "connection reset" ||
        strContains errStr "broken pipe" ||
        strContains errStr "no route to host" ||
        strContains errStr "network is unreachable" then
      some ErrConnection
    else if strContains errStr "proxy" then some ErrProxy
    else if strContains errStr "protocol" || strContains errStr "http2" ||
        strContains errStr "alpn" then
      some ErrProtocol
    else some ErrConnection

/-- `NewConnectionError` from errors.go. -/
def NewConnectionError (op host port protocol : String) (cause : Option GoError) :
    GoError :=
  .transportErr op host port protocol cause (some ErrConnection)
    (isRetryableError cause)

/-- `NewTLSError` from errors.go. -/
def NewTLSError (op host port protocol : String) (cause : Option GoError) :
    GoError :=
  .transportErr op host port protocol cause (some ErrTLS) false

/-- `NewDNSError` from errors.go (only `Op`, `Host`, `Cause`, `Category`,
`Retryable` are set; `Port` and `Protocol` keep the Go zero value `""`). -/
def NewDNSError (host : String) (cause : Option GoError) : GoError :=
  .transportErr "dns_resolve" host "" "" cause (some ErrDNS) true

/-- `NewTimeoutError` from errors.go. -/
def NewTimeoutError (op host port protocol : String) (cause : Option GoError) :
    GoError :=
  .transportErr op host port protocol cause (some ErrTimeout) true

/-- `NewProxyError` from errors.go. -/
def NewProxyError (op host port : String) (cause : Option GoError) : GoError :=
  .transportErr op host port "" cause (some ErrProxy) false

/-- `NewProtocolError` from errors.go. -/
def NewProtocolError (host port protocol : String) (cause : Option GoError) :
    GoError :=
  .transportErr "protocol_negotiation" host port protocol cause
    (some ErrProtocol) false

/-- `NewRequestError` from errors.go. -/
def NewRequestError (op host port protocol : String) (cause : Option GoError) :
    GoError :=
  .transportErr op host port protocol cause (some ErrRequest)
    (isRetryableError cause)

/-- `WrapError` from errors.go: nil causes pass through, an error that
already is (or wraps) a `*TransportError` is returned unchanged, anything
else is wrapped with an inferred category and retryability. -/
def WrapError (op host port protocol : String) : Option GoError → Option GoError
  | none => none
  | some cause =>
    if cause.asTransport then some cause
    else
      some (.transportErr op host port protocol (some cause)
        (categorizeError (some cause)) (isRetryableError (some cause)))

/-- View of the seven fields of a `*TransportError` (projection used to state
claims about the error constructors). -/
structure TEView where
  op : String
  host : String
  port : String
  protocol : String
  cause : Option GoError
  category : Option GoError
  retryable : Bool

/-- Projects a Go error to its `*TransportError` fields when it is one. -/
def GoError.fields : GoError → Option TEView
  | .transportErr op host port protocol cause category retryable =>
    some ⟨op, host, port, protocol, cause, category, retryable⟩
  | _ => none

/-- `isProtocolError` from transport.go (argument is nilable like the Go
`error` parameter). -/
def isProtocolError : Option GoError → Bool
  | none => false
  | some err =>
    let errStr := strToLower err.errorString
    strContains errStr "protocol" || strContains errStr "alpn" ||
      strContains errStr "http2" || strContains errStr "does not support"

/-- `ProxyConfig` from transport.go. -/
structure ProxyConfig where
  URL : String
  Username : String
  Password : String
deriving DecidableEq, Repr

/-- The result of Go's `url.Parse` on a request URL, as far as transport.go
consumes it (`Scheme`, `Hostname()`, `Port()`).  `url.Parse` itself is
standard-library code outside the verified files, so the embedding carries
the parsed form alongside the raw URL string. -/
structure URLParts where
  scheme : String
  hostname : String
  port : String
deriving DecidableEq, Repr

/-- `Request` from transport.go (headers as an ordered association list,
body as bytes, timeout in nanoseconds), together with the parse of its URL
(see `URLParts`). -/
structure Request where
  Method : String
  URL : String
  parsedURL : URLParts
  Headers : List (String × String)
  Body : List Nat
  Timeout : Int
deriving DecidableEq, Repr

/-- `protocol.Timing` (package `protocol` is outside the verified files;
the fields are the ones transport.go writes, with Go's float64 milliseconds
modelled as integers).  Go zero value: all fields 0. -/
structure Timing where
  DNSLookup : Int := 0
  TCPConnect : Int := 0
  TLSHandshake : Int := 0
  FirstByte : Int := 0
  Total : Int := 0
deriving DecidableEq, Repr

/-- `Response` from transport.go: status code, a single-string-per-key
header map (association list, see `buildHeadersMap`), a fully buffered byte
body, the final URL, the timing record, and the protocol tag. -/
structure Response where
  StatusCode : Int
  Headers : List (String × String)
  Body : List Nat
  FinalURL : String
  Timing : Timing
  Protocol : String
deriving DecidableEq, Repr

/-- `fingerprint.Preset` (package `fingerprint` is outside the verified
files; modelled with exactly the fields transport.go reads). -/
structure Preset where
  name : String
  UserAgent : String
  Headers : List (String × String)
  SupportHTTP3 : Bool
deriving DecidableEq, Repr

/-- State of one per-protocol sub-transport (`HTTP1Transport`,
`HTTP2Transport` or `HTTP3Transport`; their implementations are outside the
verified files).  transport.go constructs them from a preset and a proxy
config and toggles their skip-verify flag through their
`SetInsecureSkipVerify` method. -/
structure ProtoTransport where
  preset : Preset
  proxy : Option ProxyConfig
  insecureSkipVerify : Bool
deriving DecidableEq, Repr

/-- `(sub-transport).SetInsecureSkipVerify` as invoked by transport.go. -/
def ProtoTransport.setSkipVerify (pt : ProtoTransport) (skip : Bool) :
    ProtoTransport :=
  { pt with insecureSkipVerify := skip }

/-- `NewHTTP1TransportWithProxy(preset, dnsCache, proxy)`; the DNS cache is
external I/O state and is omitted.  The skip-verify flag starts at the Go
zero value `false`. -/
def NewHTTP1TransportWithProxy (preset : Preset) (proxy : Option ProxyConfig) :
    ProtoTransport :=
  ⟨preset, proxy, false⟩

/-- `NewHTTP2TransportWithProxy(preset, dnsCache, proxy)`. -/
def NewHTTP2TransportWithProxy (preset : Preset) (proxy : Option ProxyConfig) :
    ProtoTransport :=
  ⟨preset, proxy, false⟩

/-- `NewHTTP3Transport(preset, dnsCache)` — HTTP/3 takes no proxy. -/
def NewHTTP3Transport (preset : Preset) : ProtoTransport :=
  ⟨preset, none, false⟩

/-- Lookup in the `protocolSupport` map (Go map modelled as an association
list where the most recent insert shadows older entries). -/
def supportLookup : List (String × Protocol) → String → Option Protocol
  | [], _ => none
  | (k, v) :: rest, host => if k == host then some v else supportLookup rest host

/-- `t.protocolSupport[host] = p` (shadowing insert). -/
def supportInsert (m : List (String × Protocol)) (host : String)
    (p : Protocol) : List (String × Protocol) :=
  (host, p) :: m

/-- `Transport` from transport.go (the mutex protecting `protocolSupport`
is concurrency plumbing with no effect on the sequential semantics and is
omitted; `timeout` is nanoseconds). -/
structure Transport where
  h1Transport : ProtoTransport
  h2Transport : ProtoTransport
  h3Transport : ProtoTransport
  preset : Preset
  timeout : Int
  protocol : Protocol
  proxy : Option ProxyConfig
  protocolSupport : List (String × Protocol)
  insecureSkipVerify : Bool
deriving DecidableEq, Repr

/-- `NewTransportWithProxy` from transport.go.  `fingerprint.Get` lives
outside the verified files, so the registry lookup is passed in as the
function `get`. -/
def NewTransportWithProxy (get : String → Preset) (presetName : String)
    (proxy : Option ProxyConfig) : Transport :=
  let preset := get presetName
  { h1Transport := NewHTTP1TransportWithProxy preset proxy
    h2Transport := NewHTTP2TransportWithProxy preset proxy
    h3Transport := NewHTTP3Transport preset
    preset := preset
    timeout := 30000000000
    protocol := .auto
    proxy := proxy
    protocolSupport := []
    insecureSkipVerify := false }

/-- `Transport.SetProtocol` from transport.go. -/
def Transport.SetProtocol (t : Transport) (p : Protocol) : Transport :=
  { t with protocol := p }

/-- `Transport.SetInsecureSkipVerify` from transport.go: note that the code
updates the facade's own flag and the H1 sub-transport only. -/
def Transport.SetInsecureSkipVerify (t : Transport) (skip : Bool) : Transport :=
  { t with insecureSkipVerify := skip
           h1Transport := t.h1Transport.setSkipVerify skip }

/-- `Transport.SetPreset` from transport.go: closes all three
sub-transports and recreates them from the freshly resolved preset (the
`Close` calls are I/O on the discarded sub-transports).  As with
`NewTransportWithProxy`, the registry lookup `fingerprint.Get` is the
parameter `get`. -/
def Transport.SetPreset (get : String → Preset) (t : Transport)
    (presetName : String) : Transport :=
  let preset := get presetName
  { t with preset := preset
           h1Transport := NewHTTP1TransportWithProxy preset t.proxy
           h2Transport := NewHTTP2TransportWithProxy preset t.proxy
           h3Transport := NewHTTP3Transport preset }

/-- `Transport.ClearProtocolCache` from transport.go. -/
def Transport.ClearProtocolCache (t : Transport) : Transport :=
  { t with protocolSupport := [] }

/-- `extractHost` from transport.go (`url.Parse` + `Hostname()`; the parse
is carried on the request, see `URLParts`). -/
def extractHost (req : Request) : String :=
  req.parsedURL.hostname

/-- Outcomes of the three per-protocol round trips `t.doHTTP3`,
`t.doHTTP2`, `t.doHTTP1` for one request.  Each sub-transport round trip is
network I/O performed outside the verified files, so the facade functions
receive these outcomes as inputs and the embedding tracks which of them the
code actually consults. -/
structure AutoOracle where
  h3 : Except GoError Response
  h2 : Except GoError Response
  h1 : Except GoError Response

/-- Whether a round-trip outcome is a success (`err == nil` in Go). -/
def rtOk : Except GoError Response → Bool
  | .ok _ => true
  | .error _ => false

/-- The H2-then-H1 tail of `Transport.doAuto` (transport.go lines 241-266):
try HTTP/2; on success record `h2`; on a protocol-negotiation failure
record `h1`; then fall back to HTTP/1.1, recording `h1` on success.
`tried` accumulates the protocols attempted so far; the trace is the third
component of the result. -/
def doAutoH2H1 (t : Transport) (host : String) (o : AutoOracle)
    (tried : List Protocol) :
    Except GoError Response × Transport × List Protocol :=
  match o.h2 with
  | .ok resp =>
    (.ok resp,
      { t with protocolSupport := supportInsert t.protocolSupport host .http2 },
      tried ++ [.http2])
  | .error e =>
    let t₁ :=
      if isProtocolError (some e) then
        { t with protocolSupport := supportInsert t.protocolSupport host .http1 }
      else t
    match o.h1 with
    | .ok resp =>
      (.ok resp,
        { t₁ with
            protocolSupport := supportInsert t₁.protocolSupport host .http1 },
        tried ++ [.http2, .http1])
    | .error e₁ => (.error e₁, t₁, tried ++ [.http2, .http1])

/-- The unknown-host arm of `Transport.doAuto` (transport.go lines
230-266): if the preset supports HTTP/3 try it first and record `h3` on
success, then fall through to the H2/H1 ladder. -/
def doAutoUnknown (t : Transport) (host : String) (o : AutoOracle) :
    Except GoError Response × Transport × List Protocol :=
  if t.preset.SupportHTTP3 then
    match o.h3 with
    | .ok resp =>
      (.ok resp,
        { t with
            protocolSupport := supportInsert t.protocolSupport host .http3 },
        [.http3])
    | .error _ => doAutoH2H1 t host o [.http3]
  else doAutoH2H1 t host o []

/-- `Transport.doAuto` from transport.go: consult the learned protocol for
the host; `h3` goes straight to HTTP/3, `h2` attempts HTTP/2 and falls back
to HTTP/1.1 on any error, `h1` goes straight to HTTP/1.1; an unrecorded
host runs the learning ladder.  (A recorded `auto` value matches no case of
the Go `switch` and also falls through to the ladder.) -/
def Transport.doAuto (t : Transport) (req : Request) (o : AutoOracle) :
    Except GoError Response × Transport × List Protocol :=
  let host := extractHost req
  match supportLookup t.protocolSupport host with
  | some .http3 => (o.h3, t, [.http3])
  | some .http2 =>
    match o.h2 with
    | .ok resp => (.ok resp, t, [.http2])
    | .error _ => (o.h1, t, [.http2, .http1])
  | some .http1 => (o.h1, t, [.http1])
  | some .auto => doAutoUnknown t host o
  | none => doAutoUnknown t host o

/-- `Transport.Do` from transport.go: plaintext URLs are forced onto
HTTP/1.1; with a configured proxy the code prefers HTTP/2 with an
unconditional HTTP/1.1 fallback; otherwise the forced protocol, or
`doAuto` in auto mode.  (The `url.Parse` failure branch concerns malformed
URL strings, which the structured `parsedURL` cannot represent.) -/
def Transport.Do (t : Transport) (req : Request) (o : AutoOracle) :
    Except GoError Response × Transport × List Protocol :=
  if req.parsedURL.scheme == "http" then (o.h1, t, [.http1])
  else if (match t.proxy with | some p => p.URL != "" | none => false) then
    match o.h2 with
    | .ok resp => (.ok resp, t, [.http2])
    | .error _ => (o.h1, t, [.http2, .http1])
  else
    match t.protocol with
    | .http1 => (o.h1, t, [.http1])
    | .http2 => (o.h2, t, [.http2])
    | .http3 => (o.h3, t, [.http3])
    | .auto => t.doAuto req o

/-- A process run: fold a sequence of `Do` calls (each with its request and
its network outcomes) over the transport state. -/
def runAuto (t : Transport) (steps : List (Request × AutoOracle)) : Transport :=
  steps.foldl (fun s step => (Transport.Do s step.1 step.2).2.1) t

/-- Insert-or-overwrite into the headers map built by `buildHeadersMap`
(Go map assignment `headers[k] = v`). -/
def headersMapSet (m : List (String × String)) (k v : String) :
    List (String × String) :=
  (m.filter (fun q => q.1 != k)) ++ [(k, v)]

/-- `buildHeadersMap` from transport.go: lowercase every key and join the
value list into one string — `"\n"`-separated for `set-cookie`, `", "`
elsewhere. -/
def buildHeadersMap (h : List (String × List String)) :
    List (String × String) :=
  h.foldl
    (fun m kv =>
      let lowerKey := strToLower kv.1
      if lowerKey == "set-cookie" then
        headersMapSet m lowerKey (String.intercalate "\n" kv.2)
      else headersMapSet m lowerKey (String.intercalate ", " kv.2))
    []

/-- `decompress` from transport.go.  The gzip and brotli decoders are
library code outside the verified files and are passed in as fallible
functions; every other branch of the Go `switch` returns the input bytes
unchanged. -/
def decompress (gzipDecode brotliDecode : List Nat → Except GoError (List Nat))
    (data : List Nat) (encoding : String) : Except GoError (List Nat) :=
  let e := strToLower encoding
  if e == "gzip" then gzipDecode data
  else if e == "br" then brotliDecode data
  else if e == "deflate" then .ok data
  else if e == "" || e == "identity" then .ok data
  else .ok data

/-! ## Concrete fixtures used by witnesses and counterexamples -/

/-- A concrete fingerprint registry for closed statements (the registry
itself lives outside the verified files; any function works). -/
def getFix : String → Preset :=
  fun n => ⟨n, "Mozilla/5.0", [], true⟩

/-- A concrete H3-capable preset. -/
def presetFix : Preset := getFix "chrome-145"

/-- A concrete request for `https://example.com/`. -/
def reqFix : Request :=
  ⟨"GET", "https://example.com/", ⟨"https", "example.com", ""⟩, [], [], 0⟩

/-- A concrete successful response. -/
def respFix : Response :=
  ⟨200, [("content-type", "text/html")], [60, 107], "https://example.com/", {}, "h1"⟩

/-- A concrete successful HTTP/3 response. -/
def respH3Fix : Response :=
  ⟨200, [], [], "https://example.com/", {}, "h3"⟩

/-- A deadline-exceeded error: a timeout, not a protocol-negotiation
failure (its text contains none of `protocol`, `alpn`, `http2`,
`does not support`). -/
def timeoutErrFix : GoError :=
  .basic "context deadline exceeded" true false false

/-- A connection-refused error (also not protocol-class). -/
def refusedErrFix : GoError :=
  .basic "connection refused" false false false

/-- An ALPN negotiation failure, protocol-class by `isProtocolError`. -/
def alpnErrFix : GoError :=
  .basic "tls: server did not negotiate alpn protocol" false false false

/-! ## Map lemmas -/

@[simp]
theorem supportLookup_insert_self (m : List (String × Protocol)) (h : String)
    (p : Protocol) : supportLookup (supportInsert m h p) h = some p := by
  simp [supportLookup, supportInsert]

theorem supportLookup_insert_ne (m : List (String × Protocol)) (h h' : String)
    (p : Protocol) (hne : h' ≠ h) :
    supportLookup (supportInsert m h' p) h = supportLookup m h := by
  simp [supportLookup, supportInsert, hne]

/-! ## Facade dispatch lemmas -/

theorem Do_dispatch_auto (t : Transport) (req : Request) (o : AutoOracle)
    (hmode : t.protocol = Protocol.auto)
    (hscheme : req.parsedURL.scheme = "https") (hproxy : t.proxy = none) :
    Transport.Do t req o = t.doAuto req o := by
  simp [Transport.Do, hscheme, hproxy, hmode]

/-- `Do` never removes or changes an existing non-`auto` support entry: the
known-protocol arms leave the map untouched and the learning ladder only
writes the (previously unrecorded) host of the current request. -/
theorem Do_preserves_support (t : Transport) (req : Request) (o : AutoOracle)
    (h : String) (p : Protocol) (hp : p ≠ Protocol.auto)
    (hknown : supportLookup t.protocolSupport h = some p) :
    supportLookup (Transport.Do t req o).2.1.protocolSupport h = some p := by
  have hmain : ∀ t' : Transport,
      supportLookup t'.protocolSupport h = some p →
      supportLookup (t'.doAuto req o).2.1.protocolSupport h = some p := by
    intro t' hk
    by_cases hhost : extractHost req = h
    · rw [Transport.doAuto]
      rw [hhost, hk]
      cases p with
      | auto => exact absurd rfl hp
      | http1 => simpa using hk
      | http2 =>
        cases o.h2 <;> simpa using hk
      | http3 => simpa using hk
    · have hne : extractHost req ≠ h := hhost
      rw [Transport.doAuto]
      cases hcase : supportLookup t'.protocolSupport (extractHost req) with
      | none =>
        rw [doAutoUnknown]
        by_cases h3s : t'.preset.SupportHTTP3
        · rw [if_pos h3s]
          cases o.h3 with
          | ok r => simpa [supportLookup_insert_ne _ _ _ _ hne] using hk
          | error e =>
            rw [doAutoH2H1]
            cases o.h2 with
            | ok r => simpa [supportLookup_insert_ne _ _ _ _ hne] using hk
            | error e2 =>
              cases o.h1 <;>
                by_cases hpe : isProtocolError (some e2) <;>
                  simp [hpe, supportLookup_insert_ne _ _ _ _ hne, hk]
        · rw [if_neg h3s, doAutoH2H1]
          cases o.h2 with
          | ok r => simpa [supportLookup_insert_ne _ _ _ _ hne] using hk
          | error e2 =>
            cases o.h1 <;>
              by_cases hpe : isProtocolError (some e2) <;>
                simp [hpe, supportLookup_insert_ne _ _ _ _ hne, hk]
      | some q =>
        cases q with
        | auto =>
          rw [doAutoUnknown]
          by_cases h3s : t'.preset.SupportHTTP3
          · rw [if_pos h3s]
            cases o.h3 with
            | ok r => simpa [supportLookup_insert_ne _ _ _ _ hne] using hk
            | error e =>
              rw [doAutoH2H1]
              cases o.h2 with
              | ok r => simpa [supportLookup_insert_ne _ _ _ _ hne] using hk
              | error e2 =>
                cases o.h1 <;>
                  by_cases hpe : isProtocolError (some e2) <;>
                    simp [hpe, supportLookup_insert_ne _ _ _ _ hne, hk]
          · rw [if_neg h3s, doAutoH2H1]
            cases o.h2 with
            | ok r => simpa [supportLookup_insert_ne _ _ _ _ hne] using hk
            | error e2 =>
              cases o.h1 <;>
                by_cases hpe : isProtocolError (some e2) <;>
                  simp [hpe, supportLookup_insert_ne _ _ _ _ hne, hk]
        | http1 => simpa using hk
        | http2 => cases o.h2 <;> simpa using hk
        | http3 => simpa using hk
  rw [Transport.Do]
  by_cases hs : req.parsedURL.scheme == "http"
  · simpa [hs] using hknown
  · rw [if_neg hs]
    by_cases hpx : (match t.proxy with | some p => p.URL != "" | none => false) = true
    · rw [if_pos hpx]
      cases o.h2 <;> simpa using hknown
    · rw [if_neg hpx]
      cases hproto : t.protocol with
      | auto => exact hmain t hknown
      | http1 => simpa using hknown
      | http2 => simpa using hknown
      | http3 => simpa using hknown

/-- `Do` leaves the configuration fields of the transport unchanged: only
`protocolSupport` is ever written. -/
theorem Do_preserves_config (t : Transport) (req : Request) (o : AutoOracle) :
    (Transport.Do t req o).2.1.protocol = t.protocol ∧
    (Transport.Do t req o).2.1.proxy = t.proxy := by
  have hmain : (t.doAuto req o).2.1.protocol = t.protocol ∧
      (t.doAuto req o).2.1.proxy = t.proxy := by
    rw [Transport.doAuto]
    cases hcase : supportLookup t.protocolSupport (extractHost req) with
    | none =>
      rw [doAutoUnknown]
      by_cases h3s : t.preset.SupportHTTP3 <;>
        [rw [if_pos h3s]; rw [if_neg h3s]] <;>
        first
        | (cases o.h3 with
            | ok r => simp
            | error e =>
              rw [doAutoH2H1]
              cases o.h2 with
              | ok r => simp
              | error e2 =>
                cases o.h1 <;> by_cases hpe : isProtocolError (some e2) <;>
                  simp [hpe])
        | (rw [doAutoH2H1]
           cases o.h2 with
           | ok r => simp
           | error e2 =>
             cases o.h1 <;> by_cases hpe : isProtocolError (some e2) <;>
               simp [hpe])
    | some q =>
      cases q with
      | auto =>
        rw [doAutoUnknown]
        by_cases h3s : t.preset.SupportHTTP3 <;>
          [rw [if_pos h3s]; rw [if_neg h3s]] <;>
          first
          | (cases o.h3 with
              | ok r => simp
              | error e =>
                rw [doAutoH2H1]
                cases o.h2 with
                | ok r => simp
                | error e2 =>
                  cases o.h1 <;> by_cases hpe : isProtocolError (some e2) <;>
                    simp [hpe])
          | (rw [doAutoH2H1]
             cases o.h2 with
             | ok r => simp
             | error e2 =>
               cases o.h1 <;> by_cases hpe : isProtocolError (some e2) <;>
                 simp [hpe])
      | http1 => simp
      | http2 => cases o.h2 <;> simp
      | http3 => simp
  rw [Transport.Do]
  by_cases hs : req.parsedURL.scheme == "http"
  · simp [hs]
  · rw [if_neg hs]
    by_cases hpx : (match t.proxy with | some p => p.URL != "" | none => false) = true
    · rw [if_pos hpx]
      cases o.h2 <;> simp
    · rw [if_neg hpx]
      cases hproto : t.protocol with
      | auto => simpa [hproto] using hmain
      | http1 => simp [hproto]
      | http2 => cases o.h2 <;> simp [hproto]
      | http3 => simp [hproto]

/-! ## Claim theorems -/

/-- C7: every error built by `NewTimeoutError`, `NewDNSError` and
`NewTLSError` is a `TransportError` carrying all seven fields `op`, `host`,
`port`, `protocol`, `cause`, `category`, `retryable`; the Timeout category
is retryable, the Dns category is retryable, and the Tls category is not
retryable. -/
theorem error_constructor_fields_and_retryability
    (op host port protocol : String) (cause : Option GoError) :
    (NewTimeoutError op host port protocol cause).fields =
      some ⟨op, host, port, protocol, cause, some ErrTimeout, true⟩ ∧
    (NewDNSError host cause).fields =
      some ⟨"dns_resolve", host, "", "", cause, some ErrDNS, true⟩ ∧
    (NewTLSError op host port protocol cause).fields =
      some ⟨op, host, port, protocol, cause, some ErrTLS, false⟩ :=
  ⟨rfl, rfl, rfl⟩

/-- C9: for every byte array and every Content-Encoding value whose
lowercasing is neither `"gzip"` nor `"br"`, `decompress` returns the input
bytes unchanged with no error, whatever the gzip and brotli decoders would
have done. -/
theorem decompress_passthrough
    (gzipDecode brotliDecode : List Nat → Except GoError (List Nat))
    (data : List Nat) (encoding : String)
    (hgz : strToLower encoding ≠ "gzip") (hbr : strToLower encoding ≠ "br") :
    decompress gzipDecode brotliDecode data encoding = .ok data := by
  rw [decompress]
  simp only [beq_iff_eq]
  rw [if_neg hgz, if_neg hbr]
  split
  · rfl
  · split <;> rfl

/-- Witness for C9 at the concrete encodings `"deflate"`, `"ZSTD"`,
`"identity"`, `""` and `"x-unknown"`, with decoders that would corrupt the
data if consulted. -/
theorem decompress_passthrough_witness :
    strToLower "ZSTD" ≠ "gzip" ∧ strToLower "ZSTD" ≠ "br" ∧
    decompress (fun _ => .ok []) (fun _ => .ok []) [1, 2, 3] "ZSTD" =
      .ok [1, 2, 3] ∧
    decompress (fun _ => .ok []) (fun _ => .ok []) [9] "deflate" = .ok [9] ∧
    decompress (fun _ => .ok []) (fun _ => .ok []) [9] "identity" = .ok [9] ∧
    decompress (fun _ => .ok []) (fun _ => .ok []) [9] "" = .ok [9] :=
  ⟨by decide, by decide,
    decompress_passthrough _ _ [1, 2, 3] "ZSTD" (by decide) (by decide),
    decompress_passthrough _ _ [9] "deflate" (by decide) (by decide),
    decompress_passthrough _ _ [9] "identity" (by decide) (by decide),
    decompress_passthrough _ _ [9] "" (by decide) (by decide)⟩

/-- C10: `WrapError` is nil-preserving (a nil cause yields nil), returns an
error that already is — or, through its `Unwrap` chain, wraps — a
`*TransportError` unchanged, and is therefore idempotent: wrapping an
already-wrapped result changes nothing, so no error is double-wrapped. -/
theorem wrapError_nil_preserving_idempotent :
    (∀ op host port protocol,
      WrapError op host port protocol none = none) ∧
    (∀ op host port protocol (e : GoError), e.asTransport = true →
      WrapError op host port protocol (some e) = some e) ∧
    (∀ op host port protocol op' host' port' protocol'
        (cause : Option GoError),
      WrapError op' host' port' protocol'
          (WrapError op host port protocol cause) =
        WrapError op host port protocol cause) := by
  refine ⟨fun _ _ _ _ => rfl, ?_, ?_⟩
  · intro op host port protocol e he
    simp [WrapError, he]
  · intro op host port protocol op' host' port' protocol' cause
    cases cause with
    | none => rfl
    | some c =>
      by_cases hc : c.asTransport
      · simp [WrapError, hc]
      · simp [WrapError, hc, GoError.asTransport]

/-- Witness for C10: an error that wraps a `*TransportError` through one
`fmt.Errorf` layer is returned unchanged. -/
theorem wrapError_nil_preserving_idempotent_witness :
    (GoError.wrapped "request failed: dial tcp: protocol error"
        (NewProtocolError "example.com" "443" "h2" none)).asTransport = true ∧
    WrapError "roundtrip" "example.com" "443" "h2"
        (some (GoError.wrapped "request failed: dial tcp: protocol error"
          (NewProtocolError "example.com" "443" "h2" none))) =
      some (GoError.wrapped "request failed: dial tcp: protocol error"
        (NewProtocolError "example.com" "443" "h2" none)) :=
  ⟨rfl,
    wrapError_nil_preserving_idempotent.2.1 "roundtrip" "example.com" "443"
      "h2" _ rfl⟩

/-- C3 counterexample: `SetPreset` does not clear the protocol-support
cache — on a transport that has learned `h1` for `example.com`, the entry
survives a preset change verbatim. -/
theorem setPreset_support_survives_counterexample :
    (Transport.SetPreset getFix
        { NewTransportWithProxy getFix "chrome-145" none with
            protocolSupport := [("example.com", Protocol.http1)] }
        "firefox-133").protocolSupport =
      [("example.com", Protocol.http1)] ∧
    [("example.com", Protocol.http1)] ≠ ([] : List (String × Protocol)) :=
  ⟨rfl, by simp⟩

/-- C3 amended: `SetPreset` tears down and rebuilds all three sub-transports
from the freshly resolved preset (keeping the existing proxy configuration),
but leaves the protocol-support cache exactly as it was; only the separate
`ClearProtocolCache` operation empties it. -/
theorem setPreset_rebuilds_support_unchanged (get : String → Preset)
    (t : Transport) (presetName : String) :
    (Transport.SetPreset get t presetName).preset = get presetName ∧
    (Transport.SetPreset get t presetName).h1Transport =
      NewHTTP1TransportWithProxy (get presetName) t.proxy ∧
    (Transport.SetPreset get t presetName).h2Transport =
      NewHTTP2TransportWithProxy (get presetName) t.proxy ∧
    (Transport.SetPreset get t presetName).h3Transport =
      NewHTTP3Transport (get presetName) ∧
    (Transport.SetPreset get t presetName).protocolSupport =
      t.protocolSupport ∧
    (Transport.ClearProtocolCache
        (Transport.SetPreset get t presetName)).protocolSupport = [] :=
  ⟨rfl, rfl, rfl, rfl, rfl, rfl⟩

/-- C4 (code bug): `Transport.SetInsecureSkipVerify` sets the facade flag
and forwards the flag to the HTTP/1.1 sub-transport only; the HTTP/2 and
HTTP/3 sub-transports are left untouched for every starting state and every
flag value, contradicting the claim (and docs/TLS.md) that the flag
propagates identically to all three. -/
theorem setInsecureSkipVerify_updates_h1_only (t : Transport) (skip : Bool) :
    (t.SetInsecureSkipVerify skip).insecureSkipVerify = skip ∧
    (t.SetInsecureSkipVerify skip).h1Transport =
      t.h1Transport.setSkipVerify skip ∧
    (t.SetInsecureSkipVerify skip).h2Transport = t.h2Transport ∧
    (t.SetInsecureSkipVerify skip).h3Transport = t.h3Transport ∧
    ((NewTransportWithProxy getFix "chrome-145"
        none).SetInsecureSkipVerify
        true).h2Transport.insecureSkipVerify = false ∧
    ((NewTransportWithProxy getFix "chrome-145"
        none).SetInsecureSkipVerify
        true).h3Transport.insecureSkipVerify = false :=
  ⟨rfl, rfl, rfl, rfl, rfl, rfl⟩

/-- A freshly constructed transport (auto mode, no proxy, empty support
cache, H3-capable preset). -/
def tFreshFix : Transport := NewTransportWithProxy getFix "chrome-145" none

/-- Transport that has already learned `h2` for `example.com`. -/
def tH2Fix : Transport :=
  { tFreshFix with protocolSupport := [("example.com", Protocol.http2)] }

/-- Transport that has already learned `h1` for `example.com`. -/
def tH1Fix : Transport :=
  { tFreshFix with protocolSupport := [("example.com", Protocol.http1)] }

/-- Network outcomes where the HTTP/3 attempt succeeds. -/
def oracleH3OkFix : AutoOracle :=
  ⟨.ok respH3Fix, .error alpnErrFix, .error refusedErrFix⟩

/-- Network outcomes where HTTP/2 times out (a non-protocol-class failure)
and HTTP/1.1 succeeds. -/
def oracleH2TimeoutFix : AutoOracle :=
  ⟨.error refusedErrFix, .error timeoutErrFix, .ok respFix⟩

/-- C8 (code bug): `buildHeadersMap` — through which every response of the
unified transport is built — flattens multi-valued headers into a single
joined string per lowercased key (`", "`-joined generally,
`"\n"`-joined for `set-cookie`), and the flattening is lossy: the distinct
value lists `["a", "b"]` and `["a, b"]` become the same entry.  The
`Response` struct likewise stores these single-string headers and a fully
buffered byte body, not the multi-valued headers and lazy body stream the
claim describes. -/
theorem buildHeadersMap_flattens_multivalued :
    buildHeadersMap [("X-Multi", ["a", "b"])] = [("x-multi", "a, b")] ∧
    buildHeadersMap [("Set-Cookie", ["a=1", "b=2"])] =
      [("set-cookie", "a=1\nb=2")] ∧
    buildHeadersMap [("X-Multi", ["a, b"])] =
      buildHeadersMap [("X-Multi", ["a", "b"])] :=
  ⟨by decide, by decide, by decide⟩

/-- C2 (code bug): in auto mode on an unknown host with an H3-capable
preset, `doAuto` is strictly sequential: when the HTTP/3 attempt yields a
working response, the HTTP/2 sub-transport is never invoked at all (the
attempt trace is exactly `[h3]`), there is no parallel race whose loser
needs cancelling. -/
theorem doAuto_h3_success_never_dials_h2 :
    (Transport.doAuto tFreshFix reqFix oracleH3OkFix).2.2 = [Protocol.http3] ∧
    Protocol.http2 ∉ (Transport.doAuto tFreshFix reqFix oracleH3OkFix).2.2 ∧
    (Transport.doAuto tFreshFix reqFix oracleH3OkFix).1 =
      .ok respH3Fix ∧
    supportLookup
        (Transport.doAuto tFreshFix reqFix oracleH3OkFix).2.1.protocolSupport
        "example.com" = some Protocol.http3 :=
  ⟨rfl, by decide, rfl, by decide⟩

/-- C5 counterexample: with `h2` recorded for the host, an HTTP/2 failure
whose class is *not* protocol (a context-deadline timeout) still triggers
the HTTP/1.1 fallback, and the facade returns the HTTP/1.1 response instead
of the HTTP/2 error. -/
theorem doAuto_h2_nonprotocol_error_falls_back_counterexample :
    isProtocolError (some timeoutErrFix) = false ∧
    (Transport.doAuto tH2Fix reqFix oracleH2TimeoutFix).1 = .ok respFix ∧
    (Transport.doAuto tH2Fix reqFix oracleH2TimeoutFix).2.2 =
      [Protocol.http2, Protocol.http1] :=
  ⟨by decide, rfl, rfl⟩

/-- C5 amended: when the support entry for the host records `h2`, the
facade attempts HTTP/2 and returns a success directly; on an HTTP/2 failure
of *any* class it falls back to HTTP/1.1 and returns whatever HTTP/1.1
produces (the error class is never consulted on this path, and the support
entry is not modified). -/
theorem doAuto_h2_known_unconditional_fallback (t : Transport) (req : Request)
    (o : AutoOracle)
    (hlookup : supportLookup t.protocolSupport (extractHost req) =
      some Protocol.http2) :
    (∀ r, o.h2 = .ok r →
      t.doAuto req o = (.ok r, t, [Protocol.http2])) ∧
    (∀ e, o.h2 = .error e →
      t.doAuto req o = (o.h1, t, [Protocol.http2, Protocol.http1])) := by
  constructor
  · intro r hh2
    rw [Transport.doAuto]
    rw [hlookup, hh2]
  · intro e hh2
    rw [Transport.doAuto]
    rw [hlookup, hh2]

/-- Witness for the amended C5 at a concrete `h2`-recorded host with a
timeout-class HTTP/2 failure. -/
theorem doAuto_h2_known_unconditional_fallback_witness :
    supportLookup tH2Fix.protocolSupport (extractHost reqFix) =
      some Protocol.http2 ∧
    Transport.doAuto tH2Fix reqFix oracleH2TimeoutFix =
      (.ok respFix, tH2Fix, [Protocol.http2, Protocol.http1]) :=
  ⟨rfl,
    (doAuto_h2_known_unconditional_fallback tH2Fix reqFix oracleH2TimeoutFix
        rfl).2 timeoutErrFix rfl⟩

/-- C1: in auto mode (https scheme, no proxy) on a host with no recorded
support entry: a successful HTTP/3 round trip records `h3` for the host and
is returned; with HTTP/3 unavailable (preset without H3 support, or a
failed H3 attempt) a successful HTTP/2 round trip records `h2`; an HTTP/2
failure classified by `isProtocolError` records `h1`; and when both the
HTTP/3 and HTTP/2 attempts fail, HTTP/1.1 is attempted last (the attempt
trace is `[h3, h2, h1]`). -/
theorem doAuto_unknown_protocol_learning (t : Transport) (req : Request)
    (o : AutoOracle)
    (hmode : t.protocol = Protocol.auto)
    (hscheme : req.parsedURL.scheme = "https")
    (hproxy : t.proxy = none)
    (hunknown : supportLookup t.protocolSupport (extractHost req) = none) :
    (∀ r, t.preset.SupportHTTP3 = true → o.h3 = .ok r →
      (Transport.Do t req o).1 = .ok r ∧
      supportLookup (Transport.Do t req o).2.1.protocolSupport
        (extractHost req) = some Protocol.http3) ∧
    (∀ r, (t.preset.SupportHTTP3 = false ∨ rtOk o.h3 = false) →
      o.h2 = .ok r →
      (Transport.Do t req o).1 = .ok r ∧
      supportLookup (Transport.Do t req o).2.1.protocolSupport
        (extractHost req) = some Protocol.http2) ∧
    (∀ e, (t.preset.SupportHTTP3 = false ∨ rtOk o.h3 = false) →
      o.h2 = .error e → isProtocolError (some e) = true →
      supportLookup (Transport.Do t req o).2.1.protocolSupport
        (extractHost req) = some Protocol.http1) ∧
    (∀ e₃ e₂, t.preset.SupportHTTP3 = true → o.h3 = .error e₃ →
      o.h2 = .error e₂ →
      (Transport.Do t req o).2.2 =
        [Protocol.http3, Protocol.http2, Protocol.http1]) := by
  have hDo := Do_dispatch_auto t req o hmode hscheme hproxy
  rw [hDo]
  simp only [Transport.doAuto, hunknown]
  refine ⟨?_, ?_, ?_, ?_⟩
  · intro r h3s hh3
    rw [doAutoUnknown, if_pos h3s, hh3]
    exact ⟨rfl, by simp⟩
  · intro r hcond hh2
    rw [doAutoUnknown]
    rcases hcond with h3s | h3f
    · rw [if_neg (by simp [h3s]), doAutoH2H1, hh2]
      exact ⟨rfl, by simp⟩
    · by_cases h3s : t.preset.SupportHTTP3
      · rw [if_pos h3s]
        cases hh3 : o.h3 with
        | ok r₃ => rw [hh3] at h3f; simp [rtOk] at h3f
        | error e₃ =>
          rw [doAutoH2H1, hh2]
          exact ⟨rfl, by simp⟩
      · rw [if_neg h3s, doAutoH2H1, hh2]
        exact ⟨rfl, by simp⟩
  · intro e hcond hh2 hpe
    rw [doAutoUnknown]
    have htail : ∀ tried,
        supportLookup
          (doAutoH2H1 t (extractHost req) o tried).2.1.protocolSupport
          (extractHost req) = some Protocol.http1 := by
      intro tried
      rw [doAutoH2H1, hh2]
      cases o.h1 <;> simp [hpe]
    rcases hcond with h3s | h3f
    · rw [if_neg (by simp [h3s])]
      exact htail []
    · by_cases h3s : t.preset.SupportHTTP3
      · rw [if_pos h3s]
        cases hh3 : o.h3 with
        | ok r₃ => rw [hh3] at h3f; simp [rtOk] at h3f
        | error e₃ => exact htail [Protocol.http3]
      · rw [if_neg h3s]
        exact htail []
  · intro e₃ e₂ h3s hh3 hh2
    rw [doAutoUnknown, if_pos h3s, hh3, doAutoH2H1, hh2]
    cases o.h1 <;> by_cases hpe : isProtocolError (some e₂) <;> simp [hpe]

/-- Witness for C1 on a fresh transport whose HTTP/3 attempt succeeds: the
facade returns the H3 response and records `h3` for `example.com`. -/
theorem doAuto_unknown_protocol_learning_witness :
    supportLookup tFreshFix.protocolSupport (extractHost reqFix) = none ∧
    (Transport.Do tFreshFix reqFix oracleH3OkFix).1 = .ok respH3Fix ∧
    supportLookup (Transport.Do tFreshFix reqFix oracleH3OkFix).2.1.protocolSupport
      (extractHost reqFix) = some Protocol.http3 := by
  have h := (doAuto_unknown_protocol_learning tFreshFix reqFix oracleH3OkFix
      rfl rfl rfl rfl).1 respH3Fix rfl rfl
  exact ⟨rfl, h.1, h.2⟩

/-- C6: the support mapping is monotonic at `h1` — once a host's entry is
`h1`, no sequence of `Do`/`doAuto` calls (with arbitrary requests and
network outcomes) ever changes it, and on the resulting state every
auto-mode https no-proxy request to that host is dispatched directly to the
HTTP/1.1 sub-transport. -/
theorem support_h1_monotonic (t : Transport) (h : String)
    (steps : List (Request × AutoOracle))
    (hmode : t.protocol = Protocol.auto) (hproxy : t.proxy = none)
    (hh1 : supportLookup t.protocolSupport h = some Protocol.http1) :
    supportLookup (runAuto t steps).protocolSupport h = some Protocol.http1 ∧
    (∀ req o, req.parsedURL.scheme = "https" → extractHost req = h →
      Transport.Do (runAuto t steps) req o =
        (o.h1, runAuto t steps, [Protocol.http1])) := by
  have hinv : ∀ (steps : List (Request × AutoOracle)) (t : Transport),
      t.protocol = Protocol.auto → t.proxy = none →
      supportLookup t.protocolSupport h = some Protocol.http1 →
      (runAuto t steps).protocol = Protocol.auto ∧
      (runAuto t steps).proxy = none ∧
      supportLookup (runAuto t steps).protocolSupport h =
        some Protocol.http1 := by
    intro steps
    induction steps with
    | nil => intro t hm hp hs; exact ⟨hm, hp, hs⟩
    | cons s ss ih =>
      intro t hm hp hs
      have hcfg := Do_preserves_config t s.1 s.2
      have hsup := Do_preserves_support t s.1 s.2 h Protocol.http1
        (by simp) hs
      have := ih (Transport.Do t s.1 s.2).2.1
        (hcfg.1.trans hm) (hcfg.2.trans hp) hsup
      simpa [runAuto, List.foldl_cons] using this
  obtain ⟨hm', hp', hs'⟩ := hinv steps t hmode hproxy hh1
  refine ⟨hs', ?_⟩
  intro req o hscheme hhost
  rw [Do_dispatch_auto _ _ _ hm' hscheme hp', Transport.doAuto]
  rw [hhost, hs']

/-- Witness for C6: a transport that knows `h1` for `example.com` keeps the
entry across a further auto request to that host, which itself is routed to
HTTP/1.1. -/
theorem support_h1_monotonic_witness :
    supportLookup tH1Fix.protocolSupport "example.com" =
      some Protocol.http1 ∧
    supportLookup
        (runAuto tH1Fix [(reqFix, oracleH3OkFix)]).protocolSupport
        "example.com" = some Protocol.http1 ∧
    Transport.Do (runAuto tH1Fix [(reqFix, oracleH3OkFix)]) reqFix
        oracleH2TimeoutFix =
      (.ok respFix, runAuto tH1Fix [(reqFix, oracleH3OkFix)],
        [Protocol.http1]) := by
  have h := support_h1_monotonic tH1Fix "example.com"
    [(reqFix, oracleH3OkFix)] rfl rfl rfl
  exact ⟨rfl, h.1, h.2 reqFix oracleH2TimeoutFix rfl rfl⟩

end HttpCloak
